import Mathlib

/-!
Verification development for the Nutrition_wisdom repository (src/main.py).

The embedding models the nutrition-lookup pipeline: the request forwarder
fetch_nutrition_data, the response shaper inside analyze_nutrition, and the
two constant endpoints about and validate.  Provider JSON values are modelled
by an inductive Json type; JSON numbers are modelled as integers, which is
inert here because the code never computes with them, it only passes them
through.  Python exceptions raised inside a try block are modelled as the
error side of Except, and the except handlers as a match on that error.
-/

namespace Nutrition

/-- A JSON value as produced by response.json().  Numbers are modelled as
integers; the source code only moves numbers around, never computes with
them, so the representation of numerals is inert. -/
inductive Json where
  | null : Json
  | bool : Bool → Json
  | num : Int → Json
  | str : String → Json
  | arr : List Json → Json
  | obj : List (String × Json) → Json

/-- Lookup of a key in a Python dict, modelled as first-match lookup in an
association list (Python dict keys are unique, so first-match is exact). -/
def jLookup : List (String × Json) → String → Option Json
  | [], _ => none
  | (k, v) :: rest, key => if k = key then some v else jLookup rest key

/-- Python dict.get(key, fallback): the stored value when the key is present
(even when that value is None), the fallback only when the key is absent. -/
def dictGetD (rec : List (String × Json)) (k : String) (d : Json) : Json :=
  (jLookup rec k).getD d

/-- Python truthiness of a JSON value: None, False, 0, empty string, empty
list and empty dict are falsy, everything else truthy. -/
def pyTruthy : Json → Bool
  | .null => false
  | .bool b => b
  | .num n => n != 0
  | .str s => !s.isEmpty
  | .arr xs => !xs.isEmpty
  | .obj fs => !fs.isEmpty

/-- The Python type name of a JSON value, as it appears in CPython error
messages such as AttributeError. -/
def pyTypeName : Json → String
  | .null => "NoneType"
  | .bool _ => "bool"
  | .num _ => "int"
  | .str _ => "str"
  | .arr _ => "list"
  | .obj _ => "dict"

/-- Python subscripting value[0], as in data["foods"][0].  Returns the first
list element, the first character of a string, an error for everything else
(KeyError 0 on a dict with string keys, TypeError on scalars); the error
carries the str() of the exception. -/
def pySubZero : Json → Except String Json
  | .arr [] => .error "list index out of range"
  | .arr (x :: _) => .ok x
  | .str s =>
      match s.data with
      | [] => .error "string index out of range"
      | c :: _ => .ok (.str (String.singleton c))
  | .obj _ => .error "0"
  | j => .error ("'" ++ pyTypeName j ++ "' object is not subscriptable")

/-- ASCII whitespace as stripped by Python str.strip().  (Python also strips
some further Unicode space characters; only ASCII matters to the claims.) -/
def pyIsSpace (c : Char) : Bool :=
  c == ' ' || c == '\t' || c == '\n' || c == '\r' || c == '\x0b' || c == '\x0c'

/-- Truthiness of food_query.strip(): true when the string has at least one
non-whitespace character. -/
def pyStripTruthy (s : String) : Bool :=
  s.data.any (fun c => !(pyIsSpace c))

/-- The two MCP error codes used by the source: INVALID_PARAMS and
INTERNAL_ERROR. -/
inductive ErrorCode where
  | INVALID_PARAMS : ErrorCode
  | INTERNAL_ERROR : ErrorCode
deriving DecidableEq

/-- ErrorData(code, message) as carried by McpError. -/
structure ErrorData where
  code : ErrorCode
  message : String

/-- The HTTP response obtained from the provider.  parsed is the outcome of
response.json() on the body: ok with the parsed value, or error with the
str() of the JSONDecodeError (the JSON parser is library code, not code of
this repository, so its outcome is part of the input). -/
structure HttpResponse where
  status : Nat
  text : String
  parsed : Except String Json

/-- The outcome of the outbound POST: either a response came back, or the
transport failed (network error, timeout, ...) with the str() of the raised
exception. -/
inductive Transport where
  | response : HttpResponse → Transport
  | failure : String → Transport

/-- A Python exception as it can arrive at the except clauses of the source:
httpx.HTTPStatusError (carrying the response, read by the handler through
e.response.text), McpError (str() of which is its ErrorData message, since
McpError.init passes error.message to Exception.init), or any other
exception carrying its str(). -/
inductive PyExc where
  | httpStatusError : HttpResponse → PyExc
  | mcpError : ErrorData → PyExc
  | otherError : String → PyExc

/-- str() of a modelled Python exception.  For httpStatusError the httpx
message text is abbreviated; no handler in the source reads it (the source
uses e.response.text instead), so its exact shape is inert. -/
def excStr : PyExc → String
  | .httpStatusError r => "HTTP status error " ++ toString r.status
  | .mcpError e => e.message
  | .otherError m => m

/-- The try block of fetch_nutrition_data (src/main.py lines 81 to 97):
POST, raise_for_status (httpx raises unless the status is 2xx), json(),
the falsy check on data.get("foods") raising McpError(INVALID_PARAMS,
"No nutrition data found for this query"), and data["foods"][0]. -/
def fetchTryBody : Transport → Except PyExc Json
  | .failure msg => .error (.otherError msg)
  | .response r =>
    if 200 ≤ r.status ∧ r.status < 300 then
      match r.parsed with
      | .error m => .error (.otherError m)
      | .ok (.obj fields) =>
          let foods := (jLookup fields "foods").getD Json.null
          if pyTruthy foods then
            match pySubZero foods with
            | .ok x => .ok x
            | .error m => .error (.otherError m)
          else
            .error (.mcpError ⟨.INVALID_PARAMS, "No nutrition data found for this query"⟩)
      | .ok other =>
          .error (.otherError ("'" ++ pyTypeName other ++ "' object has no attribute 'get'"))
    else
      .error (.httpStatusError r)

/-- fetch_nutrition_data (src/main.py lines 71 to 106): the try body above
followed by the two except handlers, in source order.  except
httpx.HTTPStatusError builds "Nutritionix API error: " ++ e.response.text;
the broad except Exception catches every other exception, including the
McpError the body itself raised, and builds
"Nutrition data fetch failed: " ++ str(e). -/
def fetch_nutrition_data (t : Transport) : Except ErrorData Json :=
  match fetchTryBody t with
  | .ok x => .ok x
  | .error (.httpStatusError r) =>
      .error ⟨.INTERNAL_ERROR, "Nutritionix API error: " ++ r.text⟩
  | .error e =>
      .error ⟨.INTERNAL_ERROR, "Nutrition data fetch failed: " ++ excStr e⟩

/-- The response-shaping dict literal of analyze_nutrition (src/main.py
lines 133 to 154): each leaf is nutrition_data.get(key, default), source is
the constant "Nutritionix API". -/
def shape (rec : List (String × Json)) : Json :=
  .obj [
    ("food", dictGetD rec "food_name" (.str "Unknown")),
    ("serving", .obj [
      ("quantity", dictGetD rec "serving_qty" (.num 1)),
      ("unit", dictGetD rec "serving_unit" (.str "serving")),
      ("weight_grams", dictGetD rec "serving_weight_grams" (.num 0))]),
    ("calories", dictGetD rec "nf_calories" (.num 0)),
    ("macronutrients", .obj [
      ("protein_g", dictGetD rec "nf_protein" (.num 0)),
      ("fat_g", dictGetD rec "nf_total_fat" (.num 0)),
      ("carbs_g", dictGetD rec "nf_total_carbohydrate" (.num 0)),
      ("fiber_g", dictGetD rec "nf_dietary_fiber" (.num 0)),
      ("sugars_g", dictGetD rec "nf_sugars" (.num 0))]),
    ("micronutrients", .obj [
      ("sodium_mg", dictGetD rec "nf_sodium" (.num 0)),
      ("cholesterol_mg", dictGetD rec "nf_cholesterol" (.num 0)),
      ("potassium_mg", dictGetD rec "nf_potassium" (.num 0))]),
    ("source", .str "Nutritionix API")]

/-- The try block of analyze_nutrition (src/main.py lines 129 to 154):
await fetch_nutrition_data (whose McpError propagates as an exception into
this try), then the shaping dict literal, whose .get calls raise
AttributeError when the fetched record is not a dict. -/
def analyzeTryBody (t : Transport) : Except PyExc Json :=
  match fetch_nutrition_data t with
  | .error e => .error (.mcpError e)
  | .ok (.obj rec) => .ok (shape rec)
  | .ok other =>
      .error (.otherError ("'" ++ pyTypeName other ++ "' object has no attribute 'get'"))

/-- Result of one call of analyze_nutrition, together with how many outbound
provider calls (invocations of fetch_nutrition_data) it issued. -/
structure AnalyzeOutcome where
  result : Except ErrorData Json
  fetchCalls : Nat

/-- analyze_nutrition (src/main.py lines 116 to 160): the blank check on
food_query.strip() raising McpError(INVALID_PARAMS, "Food query cannot be
empty") before the try block, then the try body above with its broad
except Exception handler building
"Failed to analyze nutrition: " ++ str(e). -/
def analyze_nutrition (food_query : String) (t : Transport) : AnalyzeOutcome :=
  if pyStripTruthy food_query = false then
    ⟨.error ⟨.INVALID_PARAMS, "Food query cannot be empty"⟩, 0⟩
  else
    match analyzeTryBody t with
    | .ok report => ⟨.ok report, 1⟩
    | .error e => ⟨.error ⟨.INTERNAL_ERROR, "Failed to analyze nutrition: " ++ excStr e⟩, 1⟩

/-- about (src/main.py lines 62 to 64): a constant two-field dict. -/
def about : Json :=
  .obj [("name", .str "NutritiWisdom"),
        ("description", .str "A MCP server which gives you nutritional information of various food items")]

/-- validate (src/main.py lines 66 to 68): returns the configured MY_NUMBER
unchanged.  The configuration value is a parameter of the model. -/
def validate (my_number : String) : String := my_number

/-- Field access on a JSON object; none when the value is not an object or
the key is absent. -/
def jGet : Json → String → Option Json
  | .obj fs, k => jLookup fs k
  | _, _ => none

/-- Access along a path of keys through nested JSON objects. -/
def jGetPath : Json → List String → Option Json
  | j, [] => some j
  | j, k :: ks =>
    match jGet j k with
    | some v => jGetPath v ks
    | none => none

/-- One row of the shaping table: report path, provider field key, and the
default used when the provider field is absent. -/
structure FieldSpec where
  path : List String
  key : String
  fallback : Json

/-- The 13 leaf rows of the shaping table of analyze_nutrition (source and
spec section 4.2 agree on these rows). -/
def fieldSpec : List FieldSpec :=
  [⟨["food"], "food_name", .str "Unknown"⟩,
   ⟨["serving", "quantity"], "serving_qty", .num 1⟩,
   ⟨["serving", "unit"], "serving_unit", .str "serving"⟩,
   ⟨["serving", "weight_grams"], "serving_weight_grams", .num 0⟩,
   ⟨["calories"], "nf_calories", .num 0⟩,
   ⟨["macronutrients", "protein_g"], "nf_protein", .num 0⟩,
   ⟨["macronutrients", "fat_g"], "nf_total_fat", .num 0⟩,
   ⟨["macronutrients", "carbs_g"], "nf_total_carbohydrate", .num 0⟩,
   ⟨["macronutrients", "fiber_g"], "nf_dietary_fiber", .num 0⟩,
   ⟨["macronutrients", "sugars_g"], "nf_sugars", .num 0⟩,
   ⟨["micronutrients", "sodium_mg"], "nf_sodium", .num 0⟩,
   ⟨["micronutrients", "cholesterol_mg"], "nf_cholesterol", .num 0⟩,
   ⟨["micronutrients", "potassium_mg"], "nf_potassium", .num 0⟩]

/-- The 11 numeric leaf rows of the shaping table (all rows whose default is
a number). -/
def numericFieldSpec : List FieldSpec :=
  [⟨["serving", "quantity"], "serving_qty", .num 1⟩,
   ⟨["serving", "weight_grams"], "serving_weight_grams", .num 0⟩,
   ⟨["calories"], "nf_calories", .num 0⟩,
   ⟨["macronutrients", "protein_g"], "nf_protein", .num 0⟩,
   ⟨["macronutrients", "fat_g"], "nf_total_fat", .num 0⟩,
   ⟨["macronutrients", "carbs_g"], "nf_total_carbohydrate", .num 0⟩,
   ⟨["macronutrients", "fiber_g"], "nf_dietary_fiber", .num 0⟩,
   ⟨["macronutrients", "sugars_g"], "nf_sugars", .num 0⟩,
   ⟨["micronutrients", "sodium_mg"], "nf_sodium", .num 0⟩,
   ⟨["micronutrients", "cholesterol_mg"], "nf_cholesterol", .num 0⟩,
   ⟨["micronutrients", "potassium_mg"], "nf_potassium", .num 0⟩]

/-- Every leaf of the shaped report is exactly dict.get of the corresponding
provider field with the documented default. -/
lemma shape_leaf_eq (rec : List (String × Json)) :
    ∀ e ∈ fieldSpec,
      jGetPath (shape rec) e.path = some ((jLookup rec e.key).getD e.fallback) := by
  intro e he
  simp only [fieldSpec, List.mem_cons, List.not_mem_nil, or_false] at he
  rcases he with rfl | rfl | rfl | rfl | rfl | rfl | rfl | rfl | rfl | rfl | rfl | rfl | rfl <;>
    simp [shape, jGetPath, jGet, jLookup, dictGetD]

/-- The numeric rows are rows of the full shaping table. -/
lemma numericFieldSpec_sub :
    ∀ e ∈ numericFieldSpec, e ∈ fieldSpec := by
  intro e he
  simp only [numericFieldSpec, List.mem_cons, List.not_mem_nil, or_false] at he
  rcases he with rfl | rfl | rfl | rfl | rfl | rfl | rfl | rfl | rfl | rfl | rfl <;>
    simp [fieldSpec]

/-- Every numeric row defaults to a non-negative number. -/
lemma numericFieldSpec_fallback :
    ∀ e ∈ numericFieldSpec, ∃ n : Int, e.fallback = .num n ∧ 0 ≤ n := by
  intro e he
  simp only [numericFieldSpec, List.mem_cons, List.not_mem_nil, or_false] at he
  rcases he with rfl | rfl | rfl | rfl | rfl | rfl | rfl | rfl | rfl | rfl | rfl <;>
    exact ⟨_, rfl, by norm_num⟩

/-- On a 2xx response whose body parses to an object with a non-empty list
under "foods", fetch_nutrition_data returns the first list element. -/
lemma fetch_ok_of_foods (r : HttpResponse) (fields : List (String × Json))
    (x : Json) (xs : List Json)
    (h1 : 200 ≤ r.status) (h2 : r.status < 300)
    (hp : r.parsed = .ok (.obj fields))
    (hf : jLookup fields "foods" = some (.arr (x :: xs))) :
    fetch_nutrition_data (.response r) = .ok x := by
  have hbody : fetchTryBody (.response r) = .ok x := by
    simp only [fetchTryBody]
    rw [if_pos ⟨h1, h2⟩, hp]
    simp [hf, pyTruthy, pySubZero]
  simp [fetch_nutrition_data, hbody]

/-- C1: on a 2xx response whose body is the object with "foods" mapped to the
empty list, the try body of fetch_nutrition_data does raise
McpError(INVALID_PARAMS, "No nutrition data found for this query"), but the
broad except Exception handler of the same function catches that very
McpError and re-wraps it, so the surfaced error is INTERNAL_ERROR with
message "Nutrition data fetch failed: No nutrition data found for this
query" -- not the invalid-input error the claim (and the raise itself)
intends. -/
theorem fetch_empty_foods_rewrapped :
    fetchTryBody (.response ⟨200, "ok", .ok (.obj [("foods", .arr [])])⟩) =
      .error (.mcpError ⟨.INVALID_PARAMS, "No nutrition data found for this query"⟩) ∧
    fetch_nutrition_data (.response ⟨200, "ok", .ok (.obj [("foods", .arr [])])⟩) =
      .error ⟨.INTERNAL_ERROR,
        "Nutrition data fetch failed: No nutrition data found for this query"⟩ := by
  constructor <;> rfl

/-- C2: for every food_query whose strip() is empty (the string is empty or
whitespace only), analyze_nutrition fails with INVALID_PARAMS "Food query
cannot be empty" and issues zero outbound provider calls, whatever the
transport would have answered. -/
theorem analyze_blank_query_invalid (q : String) (t : Transport)
    (h : pyStripTruthy q = false) :
    analyze_nutrition q t =
      ⟨.error ⟨.INVALID_PARAMS, "Food query cannot be empty"⟩, 0⟩ := by
  simp [analyze_nutrition, h]

/-- Witness for C2 at the whitespace-only query "   ". -/
theorem analyze_blank_query_invalid_witness :
    pyStripTruthy "   " = false ∧
    analyze_nutrition "   " (Transport.failure "network down") =
      ⟨.error ⟨.INVALID_PARAMS, "Food query cannot be empty"⟩, 0⟩ :=
  ⟨by decide, analyze_blank_query_invalid "   " (Transport.failure "network down") (by decide)⟩

/-- C3: shaping is total (shape is a total function of the record) and for
every record, every one of the 13 leaf fields of the report is present;
a leaf whose provider field is absent from the record carries the documented
default, and source is the constant "Nutritionix API". -/
theorem shape_total_defaults (rec : List (String × Json)) :
    (∀ e ∈ fieldSpec,
        (jGetPath (shape rec) e.path).isSome = true ∧
        (jLookup rec e.key = none → jGetPath (shape rec) e.path = some e.fallback)) ∧
    jGet (shape rec) "source" = some (.str "Nutritionix API") := by
  refine ⟨fun e he => ⟨?_, fun hnone => ?_⟩, ?_⟩
  · rw [shape_leaf_eq rec e he]; rfl
  · rw [shape_leaf_eq rec e he, hnone]; rfl
  · simp [shape, jGet, jLookup]

/-- Witness for C3 at the empty record: the food leaf is present and carries
the default "Unknown". -/
theorem shape_total_defaults_witness :
    jGetPath (shape ([] : List (String × Json))) ["food"] = some (.str "Unknown") :=
  ((shape_total_defaults []).1 ⟨["food"], "food_name", .str "Unknown"⟩
    (by simp [fieldSpec])).2 rfl

/-- C4: the banana example end to end: a 2xx response with body having
"foods" mapped to the one-record list with food_name "banana" and
nf_calories 105 yields a report with food banana, calories 105, the default
serving unit, the default protein 0, and the constant source. -/
theorem analyze_banana_example :
    ∃ rep,
      (analyze_nutrition "1 banana"
          (Transport.response ⟨200, "ok",
            .ok (.obj [("foods",
              .arr [.obj [("food_name", .str "banana"), ("nf_calories", .num 105)]])])⟩)).result
        = .ok rep ∧
      jGet rep "food" = some (.str "banana") ∧
      jGet rep "calories" = some (.num 105) ∧
      jGetPath rep ["serving", "unit"] = some (.str "serving") ∧
      jGetPath rep ["macronutrients", "protein_g"] = some (.num 0) ∧
      jGet rep "source" = some (.str "Nutritionix API") := by
  refine ⟨_, rfl, ?_, ?_, ?_, ?_, ?_⟩ <;> rfl

/-- C5: on a 2xx response whose body parses to an object carrying a
non-empty list under "foods", fetch_nutrition_data succeeds and returns the
first element of that list unmodified. -/
theorem fetch_first_food (r : HttpResponse) (fields : List (String × Json))
    (x : Json) (xs : List Json)
    (h1 : 200 ≤ r.status) (h2 : r.status < 300)
    (hp : r.parsed = .ok (.obj fields))
    (hf : jLookup fields "foods" = some (.arr (x :: xs))) :
    fetch_nutrition_data (.response r) = .ok x :=
  fetch_ok_of_foods r fields x xs h1 h2 hp hf

/-- Witness for C5 at a concrete two-element foods list. -/
theorem fetch_first_food_witness :
    fetch_nutrition_data
        (.response ⟨200, "ok", .ok (.obj [("foods", .arr [.num 7, .num 8])])⟩)
      = .ok (.num 7) :=
  fetch_first_food ⟨200, "ok", .ok (.obj [("foods", .arr [.num 7, .num 8])])⟩
    [("foods", .arr [.num 7, .num 8])] (.num 7) [.num 8]
    (by norm_num) (by norm_num) rfl rfl

/-- C6: on a response whose status is 4xx or 5xx, fetch_nutrition_data fails
with an INTERNAL_ERROR whose message contains the raw response body text
(it is "Nutritionix API error: " followed by that text). -/
theorem fetch_http_error (r : HttpResponse)
    (h1 : 400 ≤ r.status) (h2 : r.status < 600) :
    ∃ e, fetch_nutrition_data (.response r) = .error e ∧
      e.code = .INTERNAL_ERROR ∧ ∃ pre, e.message = pre ++ r.text := by
  refine ⟨⟨.INTERNAL_ERROR, "Nutritionix API error: " ++ r.text⟩, ?_, rfl,
    "Nutritionix API error: ", rfl⟩
  have hbody : fetchTryBody (.response r) = .error (.httpStatusError r) := by
    simp only [fetchTryBody]
    rw [if_neg (by omega)]
  simp [fetch_nutrition_data, hbody]

/-- Witness for C6 at status 400 with body text "bad request". -/
theorem fetch_http_error_witness :
    ∃ e, fetch_nutrition_data (.response ⟨400, "bad request", .error "no json"⟩) = .error e ∧
      e.code = .INTERNAL_ERROR ∧ ∃ pre, e.message = pre ++ "bad request" :=
  fetch_http_error ⟨400, "bad request", .error "no json"⟩ (by norm_num) (by norm_num)

/-- C7 counterexample: the code does not clamp provider values.  With the
provider record carrying nf_calories mapped to -5, the pipeline succeeds and
the report carries calories -5, a numeric leaf the provider supplied that is
negative -- refuting the claim that every provider-supplied numeric leaf is
non-negative. -/
theorem analyze_negative_passthrough :
    ∃ rep,
      (analyze_nutrition "1 banana"
          (Transport.response ⟨200, "ok",
            .ok (.obj [("foods", .arr [.obj [("nf_calories", .num (-5))]])])⟩)).result
        = .ok rep ∧
      jLookup [("nf_calories", Json.num (-5))] "nf_calories" = some (.num (-5)) ∧
      jGet rep "calories" = some (.num (-5)) ∧ (-5 : Int) < 0 := by
  refine ⟨_, rfl, rfl, rfl, by norm_num⟩

/-- C7 amended: for every non-blank food_query and 2xx response whose body
carries a non-empty foods list whose first element is a record, if every
numeric provider field present in that record is a non-negative number, then
analyze_nutrition succeeds, all 13 leaf fields are present, and every
numeric leaf is a non-negative number (provider values pass through
unmodified, absent fields default to non-negative constants). -/
theorem analyze_success_report_nonneg (q : String) (r : HttpResponse)
    (fields recf : List (String × Json)) (rest : List Json)
    (hq : pyStripTruthy q = true)
    (h1 : 200 ≤ r.status) (h2 : r.status < 300)
    (hp : r.parsed = .ok (.obj fields))
    (hf : jLookup fields "foods" = some (.arr (Json.obj recf :: rest)))
    (hnn : ∀ e ∈ numericFieldSpec, ∀ v, jLookup recf e.key = some v →
            ∃ n : Int, v = .num n ∧ 0 ≤ n) :
    ∃ rep, (analyze_nutrition q (.response r)).result = .ok rep ∧
      (∀ e ∈ fieldSpec, (jGetPath rep e.path).isSome = true) ∧
      (∀ e ∈ numericFieldSpec, ∃ n : Int, jGetPath rep e.path = some (.num n) ∧ 0 ≤ n) := by
  have hfetch : fetch_nutrition_data (.response r) = .ok (Json.obj recf) :=
    fetch_ok_of_foods r fields _ rest h1 h2 hp hf
  refine ⟨shape recf, ?_, ?_, ?_⟩
  · simp [analyze_nutrition, hq, analyzeTryBody, hfetch]
  · intro e he
    rw [shape_leaf_eq recf e he]; rfl
  · intro e he
    have hleaf := shape_leaf_eq recf e (numericFieldSpec_sub e he)
    cases hv : jLookup recf e.key with
    | none =>
        obtain ⟨n, hfb, hn⟩ := numericFieldSpec_fallback e he
        refine ⟨n, ?_, hn⟩
        rw [hleaf, hv, hfb]; rfl
    | some v =>
        obtain ⟨n, rfl, hn⟩ := hnn e he v hv
        refine ⟨n, ?_, hn⟩
        rw [hleaf, hv]; rfl

/-- Witness for the amended C7 at a record with no numeric provider fields:
all leaves fall back to the non-negative defaults. -/
theorem analyze_success_report_nonneg_witness :
    ∃ rep,
      (analyze_nutrition "1 banana"
          (Transport.response ⟨200, "ok",
            .ok (.obj [("foods", .arr [Json.obj []])])⟩)).result = .ok rep ∧
      (∀ e ∈ fieldSpec, (jGetPath rep e.path).isSome = true) ∧
      (∀ e ∈ numericFieldSpec, ∃ n : Int, jGetPath rep e.path = some (.num n) ∧ 0 ≤ n) :=
  analyze_success_report_nonneg "1 banana" ⟨200, "ok", .ok (.obj [("foods", .arr [Json.obj []])])⟩
    [("foods", .arr [Json.obj []])] [] [] (by decide) (by norm_num) (by norm_num) rfl rfl
    (fun e he v hv => absurd hv (by simp [jLookup]))

/-- C8: about is the constant two-field object with the name and description
of the server, and validate returns the configured identifier unchanged on
every call. -/
theorem about_validate_constant :
    jGet about "name" = some (.str "NutritiWisdom") ∧
    jGet about "description" =
      some (.str "A MCP server which gives you nutritional information of various food items") ∧
    about = .obj [("name", .str "NutritiWisdom"),
      ("description", .str "A MCP server which gives you nutritional information of various food items")] ∧
    ∀ m : String, validate m = m :=
  ⟨rfl, rfl, rfl, fun _ => rfl⟩

/-- C9: the defaults apply only to absent keys.  Python dict.get returns the
stored value even when it is None, so a provider field mapped to JSON null
yields null at the corresponding report leaf, not the documented default. -/
theorem shape_null_passthrough (rec : List (String × Json)) :
    ∀ e ∈ fieldSpec, jLookup rec e.key = some .null →
      jGetPath (shape rec) e.path = some .null := by
  intro e he hnull
  rw [shape_leaf_eq rec e he, hnull]
  rfl

/-- Witness for C9: a record mapping food_name to null shapes to a report
whose food leaf is null, not "Unknown". -/
theorem shape_null_passthrough_witness :
    jGetPath (shape [("food_name", Json.null)]) ["food"] = some Json.null :=
  shape_null_passthrough [("food_name", Json.null)]
    ⟨["food"], "food_name", .str "Unknown"⟩ (by simp [fieldSpec]) rfl

/-- C10: once the non-blank check passes, every failure analyze_nutrition
surfaces is INTERNAL_ERROR with message prefixed
"Failed to analyze nutrition: ", because the broad except handler re-wraps
every exception, including the already-classified McpError values raised by
fetch_nutrition_data. -/
theorem analyze_error_wrapped (q : String) (t : Transport) (e : ErrorData)
    (hq : pyStripTruthy q = true)
    (he : (analyze_nutrition q t).result = .error e) :
    e.code = .INTERNAL_ERROR ∧
    ∃ s, e.message = "Failed to analyze nutrition: " ++ s := by
  unfold analyze_nutrition at he
  rw [hq] at he
  simp only [Bool.true_eq_false, if_false] at he
  cases h : analyzeTryBody t with
  | ok rep => rw [h] at he; simp at he
  | error pe =>
      rw [h] at he
      simp only [Except.error.injEq] at he
      subst he
      exact ⟨rfl, excStr pe, rfl⟩

/-- Witness for C10: a 2xx response with an empty foods list makes
analyze_nutrition surface the doubly wrapped internal error. -/
theorem analyze_error_wrapped_witness :
    (⟨ErrorCode.INTERNAL_ERROR,
        "Failed to analyze nutrition: Nutrition data fetch failed: No nutrition data found for this query"⟩ :
      ErrorData).code = .INTERNAL_ERROR ∧
    ∃ s, (⟨ErrorCode.INTERNAL_ERROR,
        "Failed to analyze nutrition: Nutrition data fetch failed: No nutrition data found for this query"⟩ :
      ErrorData).message = "Failed to analyze nutrition: " ++ s :=
  analyze_error_wrapped "1 banana"
    (.response ⟨200, "ok", .ok (.obj [("foods", .arr [])])⟩) _ (by decide) rfl

end Nutrition
